import Mathlib

/-!
Verification of `storage_insights.py` (CLI helper for IBM Storage Insights
APIs) against its natural-language specification.

The Python module is shallowly embedded: JSON values become an inductive
type, Python's dynamic operations (`d[k]`, `d.get`, `int(...)`, truthiness,
`str.strip`, `str.splitlines`, ...) become total Lean functions with the
same observable behaviour, the network becomes an explicit
`ExchangeOutcome` argument, and the orchestrator `main` becomes a function
returning its result together with the list of observable effects it
performed.  Python `float` values are modelled at exact rational
precision; every concrete input appearing in a theorem below is exactly
representable in binary64, so the model and CPython agree on them.
-/

set_option maxRecDepth 4096
set_option linter.unusedVariables false

/-- A JSON value as produced by `json.loads` (Python `None`, `bool`, `int`,
`float`, `str`, `list`, `dict`).  Python `float` is modelled as an exact
rational. -/
inductive Json where
  | null
  | bool (b : Bool)
  | int (n : Int)
  | float (q : ℚ)
  | str (s : String)
  | arr (xs : List Json)
  | obj (kvs : List (String × Json))
deriving Repr

/-- The Python exceptions raised by the module (spec taxonomy in
parentheses): `FileNotFoundError`, `KeyError`/`TypeError`/`ValueError`
(intermediate, always re-raised), `ValueError` from `read_creds`
(`ConfigurationError`), and `RuntimeError` carrying a message
(`HttpStatusError` / `TransportError` / `DecodeError` /
`MalformedResponseError`, distinguished by the message text). -/
inductive PyErr where
  | fileNotFound (msg : String)
  | keyError (k : String)
  | typeError
  | valueError (msg : String)
  | runtimeError (msg : String)
deriving Repr, DecidableEq

/-- `true` exactly on `Except.error`. -/
def isError {α : Type} : Except PyErr α → Bool
  | .error _ => true
  | .ok _ => false

/-- Python truthiness (`bool(v)`) on JSON values: `None`, `False`, `0`,
`0.0`, `""`, `[]`, `{}` are falsy, everything else truthy. -/
def pyTruthy : Json → Bool
  | .null => false
  | .bool b => b
  | .int n => decide (n ≠ 0)
  | .float q => decide (q ≠ 0)
  | .str s => decide (s ≠ "")
  | .arr xs => !xs.isEmpty
  | .obj kvs => !kvs.isEmpty

/-- Python `repr` of a string: quotes around the text.  Python's escaping
of special characters inside the text is not modelled (no claim depends
on it). -/
def pyReprStr (s : String) : String := "\x27" ++ s ++ "\x27"

mutual

/-- Python `repr` of a JSON value (used by `str` on containers and inside
f-string interpolation of a dict).  Faithful for `None`/`bool`/`int`/
`str`/`list`/`dict` built from those; `float` rendering is approximated
by the rational's `num/den` form (no claim depends on float rendering). -/
def pyRepr : Json → String
  | .null => "None"
  | .bool true => "True"
  | .bool false => "False"
  | .int n => toString n
  | .float q => toString q.num ++ "/" ++ toString q.den
  | .str s => pyReprStr s
  | .arr xs => "[" ++ pyReprList xs ++ "]"
  | .obj kvs => "\x7b" ++ pyReprObj kvs ++ "\x7d"

def pyReprList : List Json → String
  | [] => ""
  | [x] => pyRepr x
  | x :: y :: rest => pyRepr x ++ ", " ++ pyReprList (y :: rest)

def pyReprObj : List (String × Json) → String
  | [] => ""
  | [(k, v)] => pyReprStr k ++ ": " ++ pyRepr v
  | (k, v) :: y :: rest => pyReprStr k ++ ": " ++ pyRepr v ++ ", " ++ pyReprObj (y :: rest)

end

/-- Python `str(v)` on a JSON value: identity on strings, `repr` shape on
everything else. -/
def pyStr : Json → String
  | .str s => s
  | v => pyRepr v

/-- Python subscription `v[k]` with a string key: looks the key up in a
dict (`KeyError` when absent), `TypeError` on any non-dict. -/
def getItem (v : Json) (k : String) : Except PyErr Json :=
  match v with
  | .obj kvs =>
      match kvs.lookup k with
      | some x => .ok x
      | none => .error (.keyError k)
  | _ => .error .typeError

/-- Characters on which Python `str.splitlines` breaks. -/
def isLineBreak (c : Char) : Bool :=
  c = '\n' || c = '\r' || c = '\x0b' || c = '\x0c' ||
  c = '\x1c' || c = '\x1d' || c = '\x1e' || c = '\x85' ||
  c = '\u2028' || c = '\u2029'

/-- Characters stripped by Python `str.strip()` (i.e. `str.isspace`):
ASCII whitespace plus the Unicode space/separator characters. -/
def pyIsSpace (c : Char) : Bool :=
  c = ' ' || c = '\t' || c = '\n' || c = '\r' || c = '\x0b' || c = '\x0c' ||
  c = '\x1c' || c = '\x1d' || c = '\x1e' || c = '\x1f' || c = '\x85' ||
  c = '\u00a0' || c = '\u1680' ||
  ('\u2000' ≤ c && c ≤ '\u200a') ||
  c = '\u2028' || c = '\u2029' || c = '\u202f' || c = '\u205f' || c = '\u3000'

/-- Python `str.strip()` on a character list. -/
def pyStripList (l : List Char) : List Char :=
  ((l.dropWhile pyIsSpace).reverse.dropWhile pyIsSpace).reverse

/-- Python `str.strip()`. -/
def pyStrip (s : String) : String := String.mk (pyStripList s.data)

/-- Python `str.splitlines` worker: `cur` holds the current line
reversed; `prevCR` records that the previous character was a `'\r'`
whose line was already emitted, so an immediately following `'\n'` is
part of the same `"\r\n"` break and is skipped. -/
def splitlinesSM : List Char → List Char → Bool → List String
  | [], cur, _ => if cur.isEmpty then [] else [String.mk cur.reverse]
  | c :: rest, cur, prevCR =>
      if prevCR && c = '\n' then splitlinesSM rest cur false
      else if c = '\r' then String.mk cur.reverse :: splitlinesSM rest [] true
      else if isLineBreak c then String.mk cur.reverse :: splitlinesSM rest [] false
      else splitlinesSM rest (c :: cur) false

/-- Python `str.splitlines()`: breaks on the universal-newline set, a
`"\r\n"` pair counting as one break; a trailing break adds no empty
final line. -/
def pySplitlines (s : String) : List String := splitlinesSM s.data [] false

/-- Python `str.lower()`.  Modelled as ASCII lowering (Python also lowers
a handful of non-ASCII letters such as the Kelvin sign; the keys compared
against in this module are pure ASCII). -/
def pyLower (s : String) : String := String.mk (s.data.map Char.toLower)

/-- Python `line.split(":", 1)` for a line known to contain a colon:
the parts before and after the first `':'`. -/
def splitFirstColon : List Char → List Char × List Char
  | [] => ([], [])
  | c :: cs =>
      if c = ':' then ([], cs)
      else
        let p := splitFirstColon cs
        (c :: p.1, p.2)

/-- One digit of an integer literal, or an underscore separator. -/
def isDigitOrUnderscore (c : Char) : Bool := c.isDigit || c = '_'

/-- Digits (ASCII) with optional single underscores between digits, as
accepted inside a Python `int()` literal; returns the value.  Python
additionally accepts non-ASCII decimal digits, which are not modelled
(no claim exercises them). -/
def parseDigitsUnd : List Char → Option Nat
  | [] => none
  | l =>
      if l.all isDigitOrUnderscore
          && l.head? ≠ some '_' && l.getLast? ≠ some '_'
          && !(l.zip (l.drop 1)).any (fun p => p.1 = '_' && p.2 = '_') then
        some ((l.filter Char.isDigit).foldl (fun acc c => acc * 10 + (c.toNat - 48)) 0)
      else none

/-- Python `int(s)` on a string: strip whitespace, optional sign, digits
with underscore separators; `none` models the `ValueError` raised on
anything else. -/
def pyParseInt (s : String) : Option Int :=
  match pyStripList s.data with
  | '+' :: rest => (parseDigitsUnd rest).map (fun n => (n : Int))
  | '-' :: rest => (parseDigitsUnd rest).map (fun n => -(n : Int))
  | rest => (parseDigitsUnd rest).map (fun n => (n : Int))

/-- Truncation of a rational toward zero: the value of Python `int(f)`
on a (finite) float `f`. -/
def pyTruncRat (q : ℚ) : Int := Int.tdiv q.num (q.den : Int)

/-- Python `int(v)` on a JSON value: identity on ints, `False`/`True`
to `0`/`1`, truncation toward zero on floats, literal parse on strings
(`ValueError` on failure), `TypeError` on `None`/lists/dicts. -/
def pyIntOfJson : Json → Except PyErr Int
  | .int n => .ok n
  | .bool b => .ok (if b then 1 else 0)
  | .float q => .ok (pyTruncRat q)
  | .str s =>
      match pyParseInt s with
      | some n => .ok n
      | none => .error (.valueError ("invalid literal for int"))
  | _ => .error .typeError

/-! ## HTTP model

`request_json` performs `urllib.request.urlopen` and decodes the JSON
body.  The network is modelled as an explicit outcome argument: either
the server produced a response (with a status, a best-effort-decoded
body text, and — when the body is valid JSON — its parse), or the
request failed at transport level (`urllib.error.URLError`).  `urlopen`
raises `urllib.error.HTTPError` carrying the status and body exactly
when the status is `≥ 400`; that library contract is part of the model
here. -/

/-- An HTTP response as observed by the client: numeric status, the body
decoded to text (for `status ≥ 400` this is `exc.read().decode("utf-8",
"ignore")`, a best-effort decode), and the JSON parse of the body
(`none` models a body `json.loads` rejects). -/
structure HttpResponse where
  status : Nat
  body : String
  payload : Option Json
deriving Repr

/-- Outcome of attempting one HTTP exchange. -/
inductive ExchangeOutcome where
  | response (r : HttpResponse)
  | unreachable (reason : String)
deriving Repr

def API_BASE : String := "https://dev.insights.ibm.com"

def TOKEN_PATH (tenant_uuid : String) : String :=
  "/restapi/v1/tenants/" ++ tenant_uuid ++ "/token"

def STORAGE_SYSTEMS_PATH (tenant_uuid : String) : String :=
  "/restapi/v1/tenants/" ++ tenant_uuid ++ "/storage-systems"

/-- `request_json(url, ...)` (lines 45-73): on an HTTP error status the
`HTTPError` is translated to `RuntimeError(f"HTTP {code} for {url}:
{details}")` with `details` the best-effort-decoded body; on transport
failure to `RuntimeError(f"Failed to reach {url}: {reason}")`; on a 2xx
body that is not JSON to `RuntimeError(f"Invalid JSON response from
{url}: ...")`; otherwise the parsed JSON is returned. -/
def request_json (url : String) : ExchangeOutcome → Except PyErr Json
  | .unreachable reason =>
      .error (.runtimeError ("Failed to reach " ++ url ++ ": " ++ reason))
  | .response r =>
      if 400 ≤ r.status then
        .error (.runtimeError
          ("HTTP " ++ toString r.status ++ " for " ++ url ++ ": " ++ r.body))
      else
        match r.payload with
        | some j => .ok j
        | none => .error (.runtimeError ("Invalid JSON response from " ++ url))

/-- The token-endpoint URL built by `obtain_token` (line 78). -/
def tokenUrl (tenant_uuid : String) : String :=
  API_BASE ++ TOKEN_PATH tenant_uuid

/-- The body of the `try` block of `obtain_token` (lines 90-92):
`result = response["result"]; token = result["token"];
expiration = int(result["expiration"])`. -/
def parseTokenFields (response : Json) : Except PyErr (Json × Int) := do
  let result ← getItem response ("result")
  let token ← getItem result ("token")
  let e ← getItem result ("expiration")
  let expiration ← pyIntOfJson e
  pure (token, expiration)

/-- `obtain_token(api_key, tenant_uuid)` (lines 76-96).  The POST and its
headers only influence the server; the exchange outcome is the explicit
`net` argument.  Any `KeyError`/`TypeError`/`ValueError` from the field
extraction is re-raised as `RuntimeError(f"Unexpected token response
structure: {response}")`.  Python's return annotation claims
`Tuple[str, int]` but the token is returned unchecked, hence `Json`
here. -/
def obtain_token (api_key tenant_uuid : String) (net : ExchangeOutcome) :
    Except PyErr (Json × Int) := do
  let response ← request_json (tokenUrl tenant_uuid) net
  match parseTokenFields response with
  | .ok r => pure r
  | .error _ =>
      .error (.runtimeError ("Unexpected token response structure: " ++ pyRepr response))

/-- A token-endpoint response of the documented shape
`{"result": {"token": T, "expiration": E}}`. -/
def goodTokenResponse (T : String) (E : Int) : Json :=
  .obj [("result", .obj [("token", .str T), ("expiration", .int E)])]

/-! ## Timestamp formatting (`_format_ts`, lines 109-116)

`_format_ts` divides the epoch-millisecond value by 1000 (Python true
division) and calls `datetime.fromtimestamp(..., tz=timezone.utc)
.isoformat()`.  CPython converts the seconds value to microseconds with
round-half-to-even and rejects values outside the `datetime` range
(years 1..9999).  The arithmetic is modelled at exact rational
precision, implemented over `num`/`den` directly. -/

/-- `v * 1000`: the microsecond count `(ms / 1000) * 10^6` of a value
`v` in milliseconds, as an exact rational. -/
def timesThousand (v : ℚ) : ℚ := mkRat (v.num * 1000) v.den

/-- Round a rational to the nearest integer, ties to even (CPython's
`_PyTime` rounding used by `datetime.fromtimestamp`). -/
def roundHalfEven (q : ℚ) : Int :=
  let f := Int.fdiv q.num (q.den : Int)
  let r2 := 2 * (q.num - f * (q.den : Int))
  if r2 < (q.den : Int) then f
  else if ((q.den : Int)) < r2 then f + 1
  else if f % 2 = 0 then f else f + 1

/-- Civil date from days since the Unix epoch (Howard Hinnant's
`civil_from_days`, the arithmetic `datetime` performs):
`(year, month, day)`. -/
def civilFromDays (z : Int) : Int × Nat × Nat :=
  let zs := z + 719468
  let era := Int.fdiv zs 146097
  let doe := (zs - era * 146097).toNat
  let yoe := (doe - doe / 1460 + doe / 36524 - doe / 146096) / 365
  let y := (yoe : Int) + era * 400
  let doy := doe - (365 * yoe + yoe / 4 - yoe / 100)
  let mp := (5 * doy + 2) / 153
  let d := doy - (153 * mp + 2) / 5 + 1
  let m := if mp < 10 then mp + 3 else mp - 9
  (if m ≤ 2 then y + 1 else y, m, d)

/-- `n` rendered in decimal, zero-padded on the left to `w` digits. -/
def padNum (w : Nat) (n : Nat) : String :=
  let s := toString n
  String.mk (List.replicate (w - s.length) '0') ++ s

/-- `datetime.fromtimestamp(us / 10^6, tz=timezone.utc).isoformat()`:
`YYYY-MM-DDTHH:MM:SS[.ffffff]+00:00`, the fractional part omitted when
the microsecond field is zero. -/
def isoformatUTC (us : Int) : String :=
  let secs := Int.fdiv us 1000000
  let micro := (us - secs * 1000000).toNat
  let days := Int.fdiv secs 86400
  let sod := (secs - days * 86400).toNat
  let ymd := civilFromDays days
  padNum 4 ymd.1.toNat ++ "-" ++ padNum 2 ymd.2.1 ++ "-" ++ padNum 2 ymd.2.2 ++ "T" ++
  padNum 2 (sod / 3600) ++ ":" ++ padNum 2 (sod % 3600 / 60) ++ ":" ++
  padNum 2 (sod % 60) ++
  (if micro = 0 then "" else "." ++ padNum 6 micro) ++ "+00:00"

/-- Smallest microsecond count `datetime` accepts
(`0001-01-01T00:00:00`). -/
def minDatetimeMicros : Int := -62135596800000000

/-- Largest microsecond count `datetime` accepts
(`9999-12-31T23:59:59.999999`). -/
def maxDatetimeMicros : Int := 253402300799999999

/-- The numeric value of a JSON value under Python's `ms / 1000`
(millisecond units): ints, floats and bools are numbers; `none` models
the `TypeError` the division raises on anything else. -/
def msNumericValue : Json → Option ℚ
  | .int n => some ((n : ℚ))
  | .float q => some q
  | .bool b => some (if b then 1 else 0)
  | _ => none

/-- The placeholder returned for falsy timestamps (line 111).  The
source file contains the three characters U+00E2, U+20AC, U+201D — the
UTF-8 bytes of an em-dash (U+2014) decoded as cp1252, i.e. a mojibake
of an intended single em-dash. -/
def placeholderGlyph : String := "â€”"

/-- An actual single em-dash (U+2014), for comparison with the
placeholder the code really produces. -/
def emDash : String := "—"

/-- `_format_ts(ms)` (lines 109-116): falsy values give the placeholder;
a numeric value is converted to an ISO-8601 UTC string; a value on which
the conversion raises (non-numeric, or outside the `datetime` range)
is rendered as `str(ms)`. -/
def _format_ts (ms : Json) : String :=
  if pyTruthy ms = false then placeholderGlyph
  else
    match msNumericValue ms with
    | none => pyStr ms
    | some v =>
        let us := roundHalfEven (timesThousand v)
        if minDatetimeMicros ≤ us ∧ us ≤ maxDatetimeMicros then isoformatUTC us
        else pyStr ms

/-! ## Table rendering (`build_table`, lines 119-151) -/

/-- One rendered table row: name, probe timestamp, monitor timestamp,
condition. -/
abbrev Row := String × String × String × String

/-- A Python dict with string keys, as the records of the `data`
sequence. -/
abbrev PyDict := List (String × Json)

/-- Python `item.get(k, default)`. -/
def dictGet (item : PyDict) (k : String) (default : Json) : Json :=
  (item.lookup k).getD default

/-- The row built for one record (lines 125-132): `str(item.get("name",
""))`, the two formatted timestamps (`item.get` returning `None` —
modelled `Json.null` — when absent), and `str(item.get("condition",
""))`. -/
def row_of_item (item : PyDict) : Row :=
  (pyStr (dictGet item ("name") (.str "")),
   _format_ts (dictGet item ("last_successful_probe") .null),
   _format_ts (dictGet item ("last_successful_monitor") .null),
   pyStr (dictGet item ("condition") (.str "")))

/-- The `for idx, item in enumerate(items)` loop of `build_table`
(lines 122-132): stops as soon as `limit is not None and idx >= limit`. -/
def rows_loop (limit : Option Int) : Nat → List PyDict → List Row
  | _, [] => []
  | idx, item :: rest =>
      match limit with
      | some k =>
          if (idx : Int) ≥ k then []
          else row_of_item item :: rows_loop (some k) (idx + 1) rest
      | none => row_of_item item :: rows_loop none (idx + 1) rest

/-- The body rows of the table. -/
def build_rows (items : List PyDict) (limit : Option Int) : List Row :=
  rows_loop limit 0 items

/-- The fixed headers (lines 134-139). -/
def tableHeaders : Row :=
  ("Name", "Last Successful Probe (UTC)", "Last Successful Monitor (UTC)", "Condition")

/-- One step of the width computation (lines 142-144): componentwise
`max` with the cell lengths of a row. -/
def updWidths (w : Nat × Nat × Nat × Nat) (r : Row) : Nat × Nat × Nat × Nat :=
  (max w.1 r.1.length, max w.2.1 r.2.1.length,
   max w.2.2.1 r.2.2.1.length, max w.2.2.2 r.2.2.2.length)

/-- The initial widths: the header lengths (line 141). -/
def initWidths : Nat × Nat × Nat × Nat :=
  (tableHeaders.1.length, tableHeaders.2.1.length,
   tableHeaders.2.2.1.length, tableHeaders.2.2.2.length)

/-- The column widths: maximum of header length and all cell lengths
(lines 141-144). -/
def widthsOf (rows : List Row) : Nat × Nat × Nat × Nat :=
  rows.foldl updWidths initWidths

/-- Python `"{:w}".format(s)` for a string: left-justified, space-padded
to a minimum width of `w` (longer strings are not truncated). -/
def ljust (s : String) (w : Nat) : String :=
  s ++ String.mk (List.replicate (w - s.length) ' ')

/-- `fmt.format(...)` (line 146): the four cells padded to the column
widths and joined with `" | "`. -/
def formatRow (w : Nat × Nat × Nat × Nat) (r : Row) : String :=
  ljust r.1 w.1 ++ " | " ++ ljust r.2.1 w.2.1 ++ " | " ++
  ljust r.2.2.1 w.2.2.1 ++ " | " ++ ljust r.2.2.2 w.2.2.2

/-- The divider (line 147): dashes of each width joined with `"-+-"`. -/
def dividerRow (w : Nat × Nat × Nat × Nat) : String :=
  String.mk (List.replicate w.1 '-') ++ "-+-" ++
  String.mk (List.replicate w.2.1 '-') ++ "-+-" ++
  String.mk (List.replicate w.2.2.1 '-') ++ "-+-" ++
  String.mk (List.replicate w.2.2.2 '-')

/-- The lines of the rendered table (lines 149-150): header, divider,
then one line per body row. -/
def build_table_lines (items : List PyDict) (limit : Option Int) : List String :=
  let rows := build_rows items limit
  let widths := widthsOf rows
  formatRow widths tableHeaders :: dividerRow widths :: rows.map (formatRow widths)

/-- `build_table(items, limit=...)` (lines 119-151): the lines joined
with newlines. -/
def build_table (items : List PyDict) (limit : Option Int) : String :=
  String.intercalate "\n" (build_table_lines items limit)

/-! ## Credential file parsing (`read_creds`, lines 18-42) -/

/-- One iteration of the `read_creds` line loop (lines 25-37): strip the
line, skip blanks, comments and colon-free lines, split at the first
colon, normalise the key, and record the stripped value under `apikey`
or `tenantid` (later lines overwrite earlier ones). -/
def credsStep (acc : Option String × Option String) (raw_line : String) :
    Option String × Option String :=
  let line := pyStripList raw_line.data
  if line.isEmpty then acc
  else if line.head? = some '#' then acc
  else if !(line.contains ':') then acc
  else
    let p := splitFirstColon line
    let key := pyLower (String.mk (pyStripList p.1))
    let value := String.mk (pyStripList p.2)
    if key = "apikey" then (some value, acc.2)
    else if key = "tenantid" then (acc.1, some value)
    else acc

/-- The `(api_key, tenant_id)` accumulation over all lines of the file. -/
def scanCreds (content : String) : Option String × Option String :=
  (pySplitlines content).foldl credsStep (none, none)

/-- Python truthiness of the `api_key` / `tenant_id` variables (`None`
or a string). -/
def optStrTruthy : Option String → Bool
  | some s => decide (s ≠ "")
  | none => false

/-- `read_creds(path)` (lines 18-42).  The filesystem is modelled by the
argument: `none` for a missing file (`FileNotFoundError`), `some
content` for the file's text.  A missing or falsy `apikey`/`tenantid`
raises `ValueError` (the spec's `ConfigurationError`). -/
def read_creds (file : Option String) : Except PyErr (String × String) :=
  match file with
  | none => .error (.fileNotFound ("Credential file not found"))
  | some content =>
      let acc := scanCreds content
      if optStrTruthy acc.1 = false || optStrTruthy acc.2 = false then
        .error (.valueError ("Both \x27apikey\x27 and \x27tenantid\x27 must be present in creds file"))
      else .ok (acc.1.getD "", acc.2.getD "")

/-! ## Storage-systems URL (`fetch_storage_systems`, lines 99-106) -/

/-- UTF-8 encoding of one character, as byte values. -/
def utf8Bytes (c : Char) : List Nat :=
  let n := c.toNat
  if n < 128 then [n]
  else if n < 2048 then [192 + n / 64, 128 + n % 64]
  else if n < 65536 then [224 + n / 4096, 128 + n / 64 % 64, 128 + n % 64]
  else [240 + n / 262144, 128 + n / 4096 % 64, 128 + n / 64 % 64, 128 + n % 64]

/-- Uppercase hex digit. -/
def hexUpper (n : Nat) : Char :=
  if n < 10 then Char.ofNat (48 + n) else Char.ofNat (55 + n)

/-- Bytes `urllib.parse.quote_plus` leaves unescaped (with the default
empty `safe` set used by `urlencode`): ASCII alphanumerics and
`_ . - ~`. -/
def isUrlSafeByte (b : Nat) : Bool :=
  (48 ≤ b && b ≤ 57) || (65 ≤ b && b ≤ 90) || (97 ≤ b && b ≤ 122) ||
  b = 95 || b = 46 || b = 45 || b = 126

/-- `quote_plus` on one byte: safe bytes pass through, a space becomes
`+`, everything else becomes `%XX` with uppercase hex. -/
def quoteByte (b : Nat) : List Char :=
  if isUrlSafeByte b then [Char.ofNat b]
  else if b = 32 then ['+']
  else ['%', hexUpper (b / 16), hexUpper (b % 16)]

/-- `urllib.parse.quote_plus(s)`: percent-encoding of the UTF-8 bytes. -/
def quote_plus (s : String) : String :=
  String.mk (((s.data.map utf8Bytes).flatten.map quoteByte).flatten)

/-- `urllib.parse.urlencode(params)`: `k=v` pairs, each side
`quote_plus`-encoded, joined with `&`. -/
def urlencode (params : List (String × String)) : String :=
  String.intercalate "&" (params.map (fun kv => quote_plus kv.1 ++ "=" ++ quote_plus kv.2))

/-- The `params` dict of `fetch_storage_systems` (lines 101-103): the
`storage-type` entry is added exactly when `storage_type` is truthy
(present and non-empty); the value is stored unchanged — no whitelist
validation. -/
def storage_params (storage_type : Option String) : List (String × String) :=
  match storage_type with
  | some s => if s = "" then [] else [("storage-type", s)]
  | none => []

/-- The listing URL (lines 104-105): path template plus `?`-query when
`params` is non-empty. -/
def storage_systems_url (tenant_uuid : String) (storage_type : Option String) : String :=
  let params := storage_params storage_type
  let query := if params.isEmpty then "" else "?" ++ urlencode params
  API_BASE ++ STORAGE_SYSTEMS_PATH tenant_uuid ++ query

/-- `fetch_storage_systems(tenant_uuid, token, storage_type)` (lines
99-106): a GET on the listing URL (the `x-api-token` header only
influences the server; the exchange outcome is the explicit `net`
argument). -/
def fetch_storage_systems (tenant_uuid token : String) (storage_type : Option String)
    (net : ExchangeOutcome) : Except PyErr Json :=
  request_json (storage_systems_url tenant_uuid storage_type) net

/-! ## Orchestrator (`main`, lines 201-241)

`main` is modelled as a function from the parsed arguments and an
environment (credential file content plus the outcome of each of the
two HTTP exchanges) to its result together with the chronological list
of observable effects: console lines, HTTP calls, and writes to the
three optional file sinks.  File writing itself is an external sink per
the spec; a write effect records the path and the value handed to the
sink. -/

/-- The parsed CLI arguments `main` consumes (`parse_args` is external
CLI surface).  `none` models an omitted path option. -/
structure Args where
  storage_type : String
  json_out : Option String
  table : Bool
  table_out : Option String
  token_out : Option String
  limit : Option Int
  quiet : Bool

/-- The world `main` runs against. -/
structure Env where
  credsFile : Option String
  tokenNet : ExchangeOutcome
  storageNet : ExchangeOutcome

/-- One observable effect of a `main` run, in order. -/
inductive Effect where
  | consoleLine (s : String)
  | tokenCall (url : String)
  | storageCall (url : String)
  | wroteToken (path : String) (token : Json)
  | wroteJson (path : String) (payload : Json)
  | wroteTable (path : String) (text : String)

/-- Python `v.get(k, default)` on a JSON dict (`payload.get("data",
[])`).  Python raises `AttributeError` on a non-dict payload; the
claims below never reach that case, and it is modelled as the default. -/
def jsonGet (v : Json) (k : String) (default : Json) : Json :=
  match v with
  | .obj kvs => (kvs.lookup k).getD default
  | _ => default

/-- Python `v.get(k)` on a JSON dict, `None` (here `none`) when absent. -/
def jsonGetOpt (v : Json) (k : String) : Option Json :=
  match v with
  | .obj kvs => kvs.lookup k
  | _ => none

/-- The record list `build_table` iterates: the `data` value as a list
of dicts.  (Python would raise when iterating a non-sequence or calling
`.get` on a non-dict record; no claim reaches those cases.) -/
def itemsOfJson : Json → List PyDict
  | .arr xs => xs.map (fun x => match x with | .obj kvs => kvs | _ => [])
  | _ => []

/-- `summary_type` (line 224): `payload.get("storageType") or
storage_type or "all"`, rendered by the f-string via `str`. -/
def summaryType (payload : Json) (storage_type : Option String) : String :=
  let fallback := match storage_type with
    | some s => if s = "" then "all" else s
    | none => "all"
  match jsonGetOpt payload ("storageType") with
  | some v => if pyTruthy v then pyStr v else fallback
  | none => fallback

/-- `main(argv)` (lines 201-241) after argument parsing: returns the
exit result (`0` or the raised exception) and the effect trace.  The
steps, in source order: `read_creds`; tenant console line;
`obtain_token` (token HTTP call); optional token write; expiration
console line; `storage_type = args.storage_type or None`;
`fetch_storage_systems` (listing HTTP call); retrieval console line;
optional JSON write; optional table rendering (stdout and/or file). -/
def mainRun (args : Args) (env : Env) : Except PyErr Int × List Effect :=
  match read_creds env.credsFile with
  | .error e => (.error e, [])
  | .ok creds =>
      let api_key := creds.1
      let tenant_uuid := creds.2
      let eff0 : List Effect :=
        if args.quiet then [] else [.consoleLine ("Using tenant: " ++ tenant_uuid)]
      let eff1 := eff0 ++ [.tokenCall (tokenUrl tenant_uuid)]
      match obtain_token api_key tenant_uuid env.tokenNet with
      | .error e => (.error e, eff1)
      | .ok tok =>
          let token := tok.1
          let expiration_ms := tok.2
          let eff2 := eff1 ++
            (match args.token_out with
             | some p =>
                 .wroteToken p token ::
                 (if args.quiet then [] else [.consoleLine ("Wrote token to " ++ p)])
             | none => [])
          let eff3 := eff2 ++
            (if args.quiet then []
             else [.consoleLine ("Token expiration (UTC): " ++ _format_ts (.int expiration_ms))])
          let storage_type : Option String :=
            if args.storage_type = "" then none else some args.storage_type
          let eff4 := eff3 ++ [.storageCall (storage_systems_url tenant_uuid storage_type)]
          match fetch_storage_systems tenant_uuid (pyStr token) storage_type env.storageNet with
          | .error e => (.error e, eff4)
          | .ok payload =>
              let systems := jsonGet payload ("data") (.arr [])
              let items := itemsOfJson systems
              let eff5 := eff4 ++
                (if args.quiet then []
                 else [.consoleLine ("Retrieved " ++ toString items.length ++
                   " storage systems (storageType=" ++ summaryType payload storage_type ++ ")")])
              let eff6 := eff5 ++
                (match args.json_out with
                 | some p =>
                     .wroteJson p payload ::
                     (if args.quiet then [] else [.consoleLine ("Wrote JSON payload to " ++ p)])
                 | none => [])
              let eff7 := eff6 ++
                (if args.table || args.table_out.isSome then
                   let table_text := build_table items args.limit
                   (if args.table then [.consoleLine table_text] else []) ++
                   (match args.table_out with
                    | some p =>
                        .wroteTable p table_text ::
                        (if args.quiet then [] else [.consoleLine ("Wrote table to " ++ p)])
                    | none => [])
                 else [])
              (.ok 0, eff7)

/-! ## Helper definitions for the theorem statements -/

/-- A minimal well-formed credential file holding the two entries. -/
def mkCredsFile (a t : String) : String :=
  "apikey:" ++ a ++ "\n" ++ "tenantid:" ++ t

/-- The token exchange fails in this environment (whatever credentials
were resolved — the outcome of the exchange does not depend on them). -/
def token_exchange_failed (env : Env) : Prop :=
  ∀ ak tu, isError (obtain_token ak tu env.tokenNet) = true

/-- The storage-systems listing fetch fails in this environment. -/
def listing_fetch_failed (env : Env) : Prop :=
  ∀ tu tok st, isError (fetch_storage_systems tu tok st env.storageNet) = true

/-! ## Helper lemmas -/

theorem stringMk_length (l : List Char) : (String.mk l).length = l.length := rfl

theorem stringMk_data (s : String) : String.mk s.data = s := rfl

theorem ljust_length (s : String) (w : Nat) :
    (ljust s w).length = max w s.length := by
  simp [ljust, String.length_append, stringMk_length]
  omega

/-! ## Claims C6, C2, C5 (HTTP and token contract) -/

/-- C6: for every HTTP response with status `≥ 400`, `request_json`
fails with the `HttpStatusError` (`RuntimeError(f"HTTP {code} for
{url}: {details}")`) carrying the original numeric status code and the
best-effort-decoded response body verbatim. -/
theorem c6_http_status_error (url : String) (r : HttpResponse) (h : 400 ≤ r.status) :
    request_json url (.response r) =
      .error (.runtimeError ("HTTP " ++ toString r.status ++ " for " ++ url ++ ": " ++ r.body)) := by
  simp [request_json, h]

theorem c6_http_status_error_witness :
    request_json ("u") (.response ⟨404, "not found", none⟩) =
      .error (.runtimeError ("HTTP 404 for u: not found")) :=
  c6_http_status_error ("u") ⟨404, "not found", none⟩ (by decide)

theorem exceptBind_ok {α β : Type} (x : α) (f : α → Except PyErr β) :
    (Except.ok x >>= f) = f x := rfl

theorem exceptBind_error {α β : Type} (e : PyErr) (f : α → Except PyErr β) :
    ((Except.error e : Except PyErr α) >>= f) = .error e := rfl

theorem request_json_ok (url : String) (st : Nat) (b : String) (p : Json) (h : st < 400) :
    request_json url (.response ⟨st, b, some p⟩) = .ok p := by
  simp [request_json, Nat.not_le.mpr h]

theorem parseTokenFields_err_result (resp : Json) (e : PyErr)
    (hr : getItem resp ("result") = .error e) : parseTokenFields resp = .error e := by
  unfold parseTokenFields
  rw [hr, exceptBind_error]

theorem parseTokenFields_err_token (resp result : Json) (e : PyErr)
    (hres : getItem resp ("result") = .ok result)
    (ht : getItem result ("token") = .error e) : parseTokenFields resp = .error e := by
  unfold parseTokenFields
  rw [hres, exceptBind_ok]
  rw [ht, exceptBind_error]

theorem parseTokenFields_err_expiration (resp result tokv : Json) (e : PyErr)
    (hres : getItem resp ("result") = .ok result)
    (ht : getItem result ("token") = .ok tokv)
    (he : getItem result ("expiration") = .error e) : parseTokenFields resp = .error e := by
  unfold parseTokenFields
  rw [hres, exceptBind_ok]
  rw [ht, exceptBind_ok]
  rw [he, exceptBind_error]

theorem obtain_token_of_parse_ok (k u b : String) (st : Nat) (resp : Json)
    (r : Json × Int) (h : st < 400) (hp : parseTokenFields resp = .ok r) :
    obtain_token k u (.response ⟨st, b, some resp⟩) = .ok r := by
  unfold obtain_token
  rw [request_json_ok _ _ _ _ h, exceptBind_ok]
  rw [hp]
  rfl

theorem obtain_token_of_parse_error (k u b : String) (st : Nat) (resp : Json)
    (e : PyErr) (h : st < 400) (hp : parseTokenFields resp = .error e) :
    obtain_token k u (.response ⟨st, b, some resp⟩) =
      .error (.runtimeError ("Unexpected token response structure: " ++ pyRepr resp)) := by
  unfold obtain_token
  rw [request_json_ok _ _ _ _ h, exceptBind_ok]
  rw [hp]

/-- C2: for every token response `{result: {token: T, expiration: E}}`
with integer `E`, `obtain_token` returns exactly `(T, E)`; and whenever
`result`, `token`, or `expiration` is missing, it fails with the
`MalformedResponseError` (`RuntimeError("Unexpected token response
structure: ...")`) — never a default. -/
theorem c2_obtain_token_contract :
    (∀ (T : String) (E : Int) (k u b : String) (st : Nat), st < 400 →
       obtain_token k u (.response ⟨st, b, some (goodTokenResponse T E)⟩) = .ok (.str T, E))
    ∧ (∀ (k u b : String) (st : Nat) (resp : Json), st < 400 →
         isError (getItem resp ("result")) = true →
         obtain_token k u (.response ⟨st, b, some resp⟩) =
           .error (.runtimeError ("Unexpected token response structure: " ++ pyRepr resp)))
    ∧ (∀ (k u b : String) (st : Nat) (resp result : Json), st < 400 →
         getItem resp ("result") = .ok result →
         isError (getItem result ("token")) = true →
         obtain_token k u (.response ⟨st, b, some resp⟩) =
           .error (.runtimeError ("Unexpected token response structure: " ++ pyRepr resp)))
    ∧ (∀ (k u b : String) (st : Nat) (resp result tokv : Json), st < 400 →
         getItem resp ("result") = .ok result →
         getItem result ("token") = .ok tokv →
         isError (getItem result ("expiration")) = true →
         obtain_token k u (.response ⟨st, b, some resp⟩) =
           .error (.runtimeError ("Unexpected token response structure: " ++ pyRepr resp))) := by
  refine ⟨?_, ?_, ?_, ?_⟩
  · intro T E k u b st h
    exact obtain_token_of_parse_ok k u b st _ _ h rfl
  · intro k u b st resp h hres
    cases hr : getItem resp ("result") with
    | ok v => rw [hr] at hres; simp [isError] at hres
    | error e =>
        exact obtain_token_of_parse_error k u b st resp e h (parseTokenFields_err_result resp e hr)
  · intro k u b st resp result h hres htok
    cases ht : getItem result ("token") with
    | ok v => rw [ht] at htok; simp [isError] at htok
    | error e =>
        exact obtain_token_of_parse_error k u b st resp e h (parseTokenFields_err_token resp result e hres ht)
  · intro k u b st resp result tokv h hres htok hexp
    cases he : getItem result ("expiration") with
    | ok v => rw [he] at hexp; simp [isError] at hexp
    | error e =>
        exact obtain_token_of_parse_error k u b st resp e h (parseTokenFields_err_expiration resp result tokv e hres htok he)

theorem c2_obtain_token_contract_witness :
    (obtain_token ("k") ("u") (.response ⟨200, "", some (goodTokenResponse ("T") 5)⟩)
      = .ok (.str ("T"), 5))
    ∧ (obtain_token ("k") ("u") (.response ⟨200, "", some (.obj [])⟩)
      = .error (.runtimeError ("Unexpected token response structure: \x7b\x7d"))) :=
  ⟨c2_obtain_token_contract.1 ("T") 5 ("k") ("u") ("") 200 (by decide),
   c2_obtain_token_contract.2.1 ("k") ("u") ("") 200 (.obj []) (by decide) (by decide)⟩

theorem parseTokenFields_expiration (T : String) (e : Json) :
    parseTokenFields (Json.obj [("result", Json.obj [("token", Json.str T), ("expiration", e)])])
      = (pyIntOfJson e).map (fun n => (Json.str T, n)) := rfl

/-- C5, counterexample: a present but fractional `expiration` (the float
`3.5`) does NOT make `obtain_token` fail — `int(result["expiration"])`
silently truncates it to `3`. -/
theorem c5_counterexample :
    obtain_token ("k") ("u") (.response ⟨200, "",
      some (.obj [("result", .obj [("token", .str ("T")), ("expiration", .float (mkRat 7 2))])])⟩)
      = .ok (.str ("T"), 3) := rfl

/-- C5, amended: a present `expiration` of a non-coercible kind (a
non-numeric string, `null`, a list, or a dict) makes `obtain_token`
fail with the `MalformedResponseError`; but a fractional number is
silently truncated toward zero and an integer-literal string is
silently coerced to its value — neither fails. -/
theorem c5_expiration_coercion :
    (∀ (T : String) (q : ℚ) (k u b : String) (st : Nat), st < 400 →
       obtain_token k u (.response ⟨st, b,
           some (.obj [("result", .obj [("token", .str T), ("expiration", .float q)])])⟩)
         = .ok (.str T, pyTruncRat q))
    ∧ (∀ (T s : String) (k u b : String) (st : Nat), st < 400 → pyParseInt s = none →
         obtain_token k u (.response ⟨st, b,
             some (.obj [("result", .obj [("token", .str T), ("expiration", .str s)])])⟩)
           = .error (.runtimeError ("Unexpected token response structure: " ++
               pyRepr (.obj [("result", .obj [("token", .str T), ("expiration", .str s)])]))))
    ∧ (∀ (T : String) (k u b : String) (st : Nat), st < 400 →
         obtain_token k u (.response ⟨st, b,
             some (.obj [("result", .obj [("token", .str T), ("expiration", .null)])])⟩)
           = .error (.runtimeError ("Unexpected token response structure: " ++
               pyRepr (.obj [("result", .obj [("token", .str T), ("expiration", .null)])]))))
    ∧ (∀ (T : String) (xs : List Json) (k u b : String) (st : Nat), st < 400 →
         obtain_token k u (.response ⟨st, b,
             some (.obj [("result", .obj [("token", .str T), ("expiration", .arr xs)])])⟩)
           = .error (.runtimeError ("Unexpected token response structure: " ++
               pyRepr (.obj [("result", .obj [("token", .str T), ("expiration", .arr xs)])]))))
    ∧ (∀ (T : String) (kvs : List (String × Json)) (k u b : String) (st : Nat), st < 400 →
         obtain_token k u (.response ⟨st, b,
             some (.obj [("result", .obj [("token", .str T), ("expiration", .obj kvs)])])⟩)
           = .error (.runtimeError ("Unexpected token response structure: " ++
               pyRepr (.obj [("result", .obj [("token", .str T), ("expiration", .obj kvs)])]))))
    ∧ (∀ (T s : String) (n : Int) (k u b : String) (st : Nat), st < 400 → pyParseInt s = some n →
         obtain_token k u (.response ⟨st, b,
             some (.obj [("result", .obj [("token", .str T), ("expiration", .str s)])])⟩)
           = .ok (.str T, n)) := by
  refine ⟨?_, ?_, ?_, ?_, ?_, ?_⟩
  · intro T q k u b st h
    exact obtain_token_of_parse_ok k u b st _ _ h rfl
  · intro T s k u b st h hs
    have hm : pyIntOfJson (.str s) = .error (.valueError ("invalid literal for int")) := by
      simp only [pyIntOfJson]
      rw [hs]
    have hp : parseTokenFields
        (Json.obj [("result", .obj [("token", .str T), ("expiration", .str s)])])
        = .error (.valueError ("invalid literal for int")) := by
      rw [parseTokenFields_expiration, hm]
      rfl
    exact obtain_token_of_parse_error k u b st _ _ h hp
  · intro T k u b st h
    exact obtain_token_of_parse_error k u b st _ _ h rfl
  · intro T xs k u b st h
    exact obtain_token_of_parse_error k u b st _ _ h rfl
  · intro T kvs k u b st h
    exact obtain_token_of_parse_error k u b st _ _ h rfl
  · intro T s n k u b st h hs
    have hm : pyIntOfJson (.str s) = .ok n := by
      simp only [pyIntOfJson]
      rw [hs]
    have hp : parseTokenFields
        (Json.obj [("result", .obj [("token", .str T), ("expiration", .str s)])])
        = .ok (.str T, n) := by
      rw [parseTokenFields_expiration, hm]
      rfl
    exact obtain_token_of_parse_ok k u b st _ _ h hp

theorem c5_expiration_coercion_witness :
    (obtain_token ("k") ("u") (.response ⟨200, "",
        some (.obj [("result", .obj [("token", .str ("T")), ("expiration", .str ("oops"))])])⟩)
      = .error (.runtimeError ("Unexpected token response structure: " ++
          pyRepr (.obj [("result", .obj [("token", .str ("T")), ("expiration", .str ("oops"))])]))))
    ∧ (obtain_token ("k") ("u") (.response ⟨200, "",
        some (.obj [("result", .obj [("token", .str ("T")), ("expiration", .str ("42"))])])⟩)
      = .ok (.str ("T"), 42)) :=
  ⟨c5_expiration_coercion.2.1 ("T") ("oops") ("k") ("u") ("") 200 (by decide) (by decide),
   c5_expiration_coercion.2.2.2.2.2 ("T") ("42") 42 ("k") ("u") ("") 200 (by decide) (by decide)⟩

/-- C9: formatting epoch-ms `1700000000000` yields the ISO-8601 UTC
string `2023-11-14T22:13:20+00:00`, which begins with
`2023-11-14T22:13:20`; formatting `0` or an absent value (`None`)
yields the fixed placeholder string. -/
theorem c9_timestamp_formatting :
    _format_ts (.int 1700000000000) = "2023-11-14T22:13:20+00:00"
    ∧ List.isPrefixOf ("2023-11-14T22:13:20").data (_format_ts (.int 1700000000000)).data = true
    ∧ _format_ts (.int 0) = placeholderGlyph
    ∧ _format_ts .null = placeholderGlyph :=
  ⟨by decide, by decide, rfl, rfl⟩

/-- C1: evaluation of the renderer at the claim's end-to-end payload
(`{"storageType":"block","data":[{"name":"sys1","condition":"Normal"}]}`,
no limit).  There is exactly one body row besides header and divider,
but its two timestamp cells are the three-character mojibake sequence
`"â€”"` (U+00E2 U+20AC U+201D — an em-dash whose UTF-8 bytes were
decoded as cp1252), not the single em-dash `—` the claim states: the
claimed row `sys1 | — | — | Normal` is not produced. -/
theorem c1_placeholder_not_single_emdash :
    build_rows [[("name", Json.str ("sys1")), ("condition", Json.str ("Normal"))]] none
      = [("sys1", placeholderGlyph, placeholderGlyph, "Normal")]
    ∧ build_rows [[("name", Json.str ("sys1")), ("condition", Json.str ("Normal"))]] none
      ≠ [("sys1", emDash, emDash, "Normal")]
    ∧ placeholderGlyph.length = 3
    ∧ emDash.length = 1
    ∧ placeholderGlyph ≠ emDash
    ∧ (build_table_lines [[("name", Json.str ("sys1")), ("condition", Json.str ("Normal"))]] none).length = 3 := by
  refine ⟨rfl, by decide, rfl, rfl, by decide, rfl⟩

/-- C8: a provided non-empty `storageType` is stored in the params dict
unchanged (no whitelist validation — any string) and the listing URL
carries it as the `storage-type` query parameter (URL-encoded by
`urlencode`); an absent or empty `storageType` appends no query
parameter at all. -/
theorem c8_storage_type_query :
    ∀ (tu s : String),
      (s ≠ "" →
        storage_params (some s) = [("storage-type", s)]
        ∧ storage_systems_url tu (some s)
            = API_BASE ++ STORAGE_SYSTEMS_PATH tu ++ "?" ++ "storage-type=" ++ quote_plus s)
      ∧ storage_systems_url tu none = API_BASE ++ STORAGE_SYSTEMS_PATH tu
      ∧ storage_systems_url tu (some "") = API_BASE ++ STORAGE_SYSTEMS_PATH tu := by
  intro tu s
  have hq : quote_plus ("storage-type") = "storage-type" := by decide
  refine ⟨fun h => ⟨?_, ?_⟩, ?_, ?_⟩
  · simp [storage_params, h]
  · have he : ("storage-type" ++ "=" : String) = ("storage-type=") := rfl
    simp only [storage_systems_url, storage_params, if_neg h]
    simp only [urlencode, List.map, hq, String.intercalate, List.isEmpty]
    rw [he]
    simp only [String.append_assoc]
    rw [show String.intercalate.go ("storage-type=" ++ quote_plus s) ("&") [] = "storage-type=" ++ quote_plus s from rfl]
    simp [String.append_assoc]
  · simp [storage_systems_url, storage_params]
  · simp [storage_systems_url, storage_params]

theorem c8_storage_type_query_witness :
    (storage_params (some ("block")) = [("storage-type", "block")]
      ∧ storage_systems_url ("t") (some ("block"))
          = API_BASE ++ STORAGE_SYSTEMS_PATH ("t") ++ "?" ++ "storage-type=" ++ quote_plus ("block"))
    ∧ storage_systems_url ("t") none = API_BASE ++ STORAGE_SYSTEMS_PATH ("t") :=
  ⟨(c8_storage_type_query ("t") ("block")).1 (by decide),
   (c8_storage_type_query ("t") ("block")).2.1⟩

theorem rows_loop_some_eq_take (items : List PyDict) (k : Int) :
    ∀ idx : Nat, rows_loop (some k) idx items = ((items.take (k - idx).toNat).map row_of_item) := by
  induction items with
  | nil => intro idx; simp [rows_loop]
  | cons x xs ih =>
      intro idx
      by_cases h : (idx : Int) ≥ k
      · have h0 : (k - idx).toNat = 0 := by omega
        simp [rows_loop, h, h0]
      · have h1 : (k - idx).toNat = (k - (idx + 1 : Nat)).toNat + 1 := by
          push_cast
          omega
        simp only [rows_loop, if_neg h, h1, List.take_succ_cons, List.map_cons]
        rw [ih (idx + 1)]

theorem rows_loop_none_eq_map (items : List PyDict) :
    ∀ idx : Nat, rows_loop none idx items = items.map row_of_item := by
  induction items with
  | nil => intro idx; simp [rows_loop]
  | cons x xs ih => intro idx; simp only [rows_loop, List.map_cons]; rw [ih (idx + 1)]

/-- C3: with `limit = k` (`k ≥ 0`), the table has exactly `min(k, n)`
body rows, and they are the renderings of the first `min(k, n)` records
in their original order (the rendered body lines are the formatted
versions of exactly those rows — no sorting, no partial row). -/
theorem c3_limit_rows (items : List PyDict) (k : Int) (h : 0 ≤ k) :
    build_rows items (some k) = (items.take k.toNat).map row_of_item
    ∧ (build_rows items (some k)).length = min k.toNat items.length
    ∧ (build_table_lines items (some k)).drop 2
        = (build_rows items (some k)).map
            (formatRow (widthsOf (build_rows items (some k)))) := by
  have he : build_rows items (some k) = (items.take k.toNat).map row_of_item := by
    have := rows_loop_some_eq_take items k 0
    simpa [build_rows] using this
  refine ⟨he, ?_, rfl⟩
  rw [he]
  simp [List.length_take]

theorem c3_limit_rows_witness :
    build_rows [[("name", Json.str ("a"))], [("name", Json.str ("b"))]] (some 1)
      = ([[("name", Json.str ("a"))], [("name", Json.str ("b"))]].take (1 : Int).toNat).map row_of_item
    ∧ (build_rows [[("name", Json.str ("a"))], [("name", Json.str ("b"))]] (some 1)).length
      = min (1 : Int).toNat ([[("name", Json.str ("a"))], [("name", Json.str ("b"))]] : List PyDict).length
    ∧ (build_table_lines [[("name", Json.str ("a"))], [("name", Json.str ("b"))]] (some 1)).drop 2
      = (build_rows [[("name", Json.str ("a"))], [("name", Json.str ("b"))]] (some 1)).map
          (formatRow (widthsOf (build_rows [[("name", Json.str ("a"))], [("name", Json.str ("b"))]] (some 1)))) :=
  c3_limit_rows [[("name", Json.str ("a"))], [("name", Json.str ("b"))]] 1 (by decide)

theorem le_foldl_updWidths (rows : List Row) :
    ∀ w0 : Nat × Nat × Nat × Nat,
      w0.1 ≤ (rows.foldl updWidths w0).1
      ∧ w0.2.1 ≤ (rows.foldl updWidths w0).2.1
      ∧ w0.2.2.1 ≤ (rows.foldl updWidths w0).2.2.1
      ∧ w0.2.2.2 ≤ (rows.foldl updWidths w0).2.2.2 := by
  induction rows with
  | nil => intro w0; simp
  | cons r l ih =>
      intro w0
      have h := ih (updWidths w0 r)
      refine ⟨le_trans ?_ h.1, le_trans ?_ h.2.1, le_trans ?_ h.2.2.1, le_trans ?_ h.2.2.2⟩ <;>
        simp [updWidths]

theorem mem_le_foldl_updWidths (rows : List Row) :
    ∀ (w0 : Nat × Nat × Nat × Nat) (r : Row), r ∈ rows →
      r.1.length ≤ (rows.foldl updWidths w0).1
      ∧ r.2.1.length ≤ (rows.foldl updWidths w0).2.1
      ∧ r.2.2.1.length ≤ (rows.foldl updWidths w0).2.2.1
      ∧ r.2.2.2.length ≤ (rows.foldl updWidths w0).2.2.2 := by
  induction rows with
  | nil => intro w0 r hr; simp at hr
  | cons a l ih =>
      intro w0 r hr
      rcases List.mem_cons.mp hr with h | h
      · subst h
        have hle := le_foldl_updWidths l (updWidths w0 r)
        refine ⟨le_trans ?_ hle.1, le_trans ?_ hle.2.1,
          le_trans ?_ hle.2.2.1, le_trans ?_ hle.2.2.2⟩ <;> simp [updWidths]
      · exact ih (updWidths w0 a) r h

theorem formatRow_length (w : Nat × Nat × Nat × Nat) (r : Row)
    (h1 : r.1.length ≤ w.1) (h2 : r.2.1.length ≤ w.2.1)
    (h3 : r.2.2.1.length ≤ w.2.2.1) (h4 : r.2.2.2.length ≤ w.2.2.2) :
    (formatRow w r).length = w.1 + w.2.1 + w.2.2.1 + w.2.2.2 + 9 := by
  simp only [formatRow, String.length_append, ljust_length,
    Nat.max_eq_left h1, Nat.max_eq_left h2, Nat.max_eq_left h3, Nat.max_eq_left h4,
    show (" | " : String).length = 3 from rfl]
  omega

theorem dividerRow_length (w : Nat × Nat × Nat × Nat) :
    (dividerRow w).length = w.1 + w.2.1 + w.2.2.1 + w.2.2.2 + 9 := by
  simp only [dividerRow, String.length_append, stringMk_length, List.length_replicate,
    show ("-+-" : String).length = 3 from rfl]
  omega

/-- C10: every line of the rendered table — header, divider, and each
body line — has exactly the same length, the sum of the four computed
column widths plus the nine separator characters; and each column's
width dominates both its header length and every cell length in that
column (each cell is padded to the maximum of those). -/
theorem c10_table_alignment (items : List PyDict) (limit : Option Int) (line : String)
    (hmem : line ∈ build_table_lines items limit) :
    (line.length = (widthsOf (build_rows items limit)).1
        + (widthsOf (build_rows items limit)).2.1
        + (widthsOf (build_rows items limit)).2.2.1
        + (widthsOf (build_rows items limit)).2.2.2 + 9)
    ∧ tableHeaders.1.length ≤ (widthsOf (build_rows items limit)).1
    ∧ tableHeaders.2.1.length ≤ (widthsOf (build_rows items limit)).2.1
    ∧ tableHeaders.2.2.1.length ≤ (widthsOf (build_rows items limit)).2.2.1
    ∧ tableHeaders.2.2.2.length ≤ (widthsOf (build_rows items limit)).2.2.2
    ∧ ∀ r ∈ build_rows items limit,
        r.1.length ≤ (widthsOf (build_rows items limit)).1
        ∧ r.2.1.length ≤ (widthsOf (build_rows items limit)).2.1
        ∧ r.2.2.1.length ≤ (widthsOf (build_rows items limit)).2.2.1
        ∧ r.2.2.2.length ≤ (widthsOf (build_rows items limit)).2.2.2 := by
  have hhdr := le_foldl_updWidths (build_rows items limit) initWidths
  have hcell := fun r hr => mem_le_foldl_updWidths (build_rows items limit) initWidths r hr
  have hwdef : widthsOf (build_rows items limit)
      = (build_rows items limit).foldl updWidths initWidths := rfl
  refine ⟨?_, ?_, ?_, ?_, ?_, ?_⟩
  case refine_2 => rw [hwdef]; exact hhdr.1
  case refine_3 => rw [hwdef]; exact hhdr.2.1
  case refine_4 => rw [hwdef]; exact hhdr.2.2.1
  case refine_5 => rw [hwdef]; exact hhdr.2.2.2
  case refine_6 =>
      intro r hr
      rw [hwdef]
      exact hcell r hr
  case refine_1 =>
      simp only [build_table_lines] at hmem
      rcases List.mem_cons.mp hmem with h | h
      · subst h
        exact formatRow_length _ _ (by rw [hwdef]; exact hhdr.1) (by rw [hwdef]; exact hhdr.2.1)
          (by rw [hwdef]; exact hhdr.2.2.1) (by rw [hwdef]; exact hhdr.2.2.2)
      rcases List.mem_cons.mp h with h2 | h2
      · subst h2
        exact dividerRow_length _
      · obtain ⟨r, hr, hfr⟩ := List.mem_map.mp h2
        subst hfr
        have hc := hcell r hr
        exact formatRow_length _ _ (by rw [hwdef]; exact hc.1) (by rw [hwdef]; exact hc.2.1)
          (by rw [hwdef]; exact hc.2.2.1) (by rw [hwdef]; exact hc.2.2.2)

theorem c10_table_alignment_witness :
    (("Name | Last Successful Probe (UTC) | Last Successful Monitor (UTC) | Condition").length
        = (widthsOf (build_rows [] none)).1 + (widthsOf (build_rows [] none)).2.1
          + (widthsOf (build_rows [] none)).2.2.1 + (widthsOf (build_rows [] none)).2.2.2 + 9)
    ∧ tableHeaders.1.length ≤ (widthsOf (build_rows [] none)).1
    ∧ tableHeaders.2.1.length ≤ (widthsOf (build_rows [] none)).2.1
    ∧ tableHeaders.2.2.1.length ≤ (widthsOf (build_rows [] none)).2.2.1
    ∧ tableHeaders.2.2.2.length ≤ (widthsOf (build_rows [] none)).2.2.2
    ∧ ∀ r ∈ build_rows [] none,
        r.1.length ≤ (widthsOf (build_rows [] none)).1
        ∧ r.2.1.length ≤ (widthsOf (build_rows [] none)).2.1
        ∧ r.2.2.1.length ≤ (widthsOf (build_rows [] none)).2.2.1
        ∧ r.2.2.2.length ≤ (widthsOf (build_rows [] none)).2.2.2 :=
  c10_table_alignment [] none
    ("Name | Last Successful Probe (UTC) | Last Successful Monitor (UTC) | Condition")
    (by decide)

theorem dropWhileLen_le (p : Char → Bool) (l : List Char) :
    (l.dropWhile p).length ≤ l.length := by
  induction l with
  | nil => simp
  | cons c cs ih =>
      cases hc : p c <;> simp [List.dropWhile_cons, hc] <;> omega

theorem dropWhile_length_eq (p : Char → Bool) (l : List Char)
    (h : (l.dropWhile p).length = l.length) : l.dropWhile p = l := by
  induction l with
  | nil => simp
  | cons c cs ih =>
      cases hc : p c
      · simp [List.dropWhile_cons, hc]
      · rw [List.dropWhile_cons, if_pos hc] at h ⊢
        have hle := dropWhileLen_le p cs
        simp only [List.length_cons] at h
        exfalso
        omega

theorem dropWhile_cons_head (p : Char → Bool) (c : Char) (cs : List Char)
    (h : (c :: cs).dropWhile p = c :: cs) : p c = false := by
  cases hc : p c
  · rfl
  · rw [List.dropWhile_cons, if_pos hc] at h
    have hle := dropWhileLen_le p cs
    have hlen := congrArg List.length h
    simp only [List.length_cons] at hlen
    exfalso
    omega

theorem pyStrip_eq_self_parts (s : String) (h : pyStrip s = s) :
    s.data.dropWhile pyIsSpace = s.data
    ∧ s.data.reverse.dropWhile pyIsSpace = s.data.reverse := by
  have hd : pyStripList s.data = s.data := congrArg String.data h
  unfold pyStripList at hd
  have hlen := congrArg List.length hd
  have l1 := dropWhileLen_le pyIsSpace s.data
  have l2 := dropWhileLen_le pyIsSpace (s.data.dropWhile pyIsSpace).reverse
  simp only [List.length_reverse] at hlen l2
  have hu : (s.data.dropWhile pyIsSpace).length = s.data.length := by omega
  have huEq : s.data.dropWhile pyIsSpace = s.data := dropWhile_length_eq _ _ hu
  refine ⟨huEq, ?_⟩
  rw [huEq] at hd
  have hrr := congrArg List.reverse hd
  simpa using hrr

theorem pyStripList_eq_self_of (l : List Char)
    (h1 : l.dropWhile pyIsSpace = l) (h2 : l.reverse.dropWhile pyIsSpace = l.reverse) :
    pyStripList l = l := by
  unfold pyStripList
  rw [h1, h2, List.reverse_reverse]

theorem string_data_ne (s : String) (h : s ≠ "") : s.data ≠ [] := by
  intro hd
  apply h
  cases s
  simp only at hd
  rw [hd]

theorem sm_cons_nonbreak (c : Char) (rest cur : List Char) (h : isLineBreak c = false) :
    splitlinesSM (c :: rest) cur false = splitlinesSM rest (c :: cur) false := by
  have hr : ¬ (c = '\r') := by
    intro hh
    rw [hh] at h
    exact absurd h (by decide)
  simp only [splitlinesSM, Bool.false_and, Bool.false_eq_true, if_false, if_neg hr, h]

theorem sm_cons_newline (rest cur : List Char) :
    splitlinesSM ('\n' :: rest) cur false = String.mk cur.reverse :: splitlinesSM rest [] false := by
  simp only [splitlinesSM, Bool.false_and, Bool.false_eq_true, if_false]
  rw [if_neg (by decide), if_pos (by decide)]

theorem sm_no_break (l : List Char) :
    (∀ c ∈ l, isLineBreak c = false) → ∀ cur : List Char, cur.reverse ++ l ≠ [] →
      splitlinesSM l cur false = [String.mk (cur.reverse ++ l)] := by
  induction l with
  | nil =>
      intro _ cur hne
      have hcur : ¬ cur.isEmpty := by
        intro hh
        apply hne
        simp only [List.isEmpty_iff] at hh
        simp [hh]
      simp only [splitlinesSM, if_neg hcur]
      simp
  | cons c cs ih =>
      intro hnb cur hne
      rw [sm_cons_nonbreak c cs cur (hnb c (List.mem_cons_self c cs))]
      rw [ih (fun x hx => hnb x (List.mem_cons_of_mem c hx)) (c :: cur) (by simp)]
      simp

theorem sm_append_newline (l1 : List Char) :
    (∀ c ∈ l1, isLineBreak c = false) → ∀ (cur l2 : List Char),
      splitlinesSM (l1 ++ '\n' :: l2) cur false
        = String.mk (cur.reverse ++ l1) :: splitlinesSM l2 [] false := by
  induction l1 with
  | nil =>
      intro _ cur l2
      simp only [List.nil_append]
      rw [sm_cons_newline]
      simp
  | cons c cs ih =>
      intro hnb cur l2
      rw [List.cons_append, sm_cons_nonbreak c _ cur (hnb c (List.mem_cons_self c cs))]
      rw [ih (fun x hx => hnb x (List.mem_cons_of_mem c hx)) (c :: cur) l2]
      simp

theorem credsStep_apikey (acc : Option String × Option String) (a : String)
    (ha : pyStrip a = a) (hne : a ≠ "") :
    credsStep acc ("apikey:" ++ a) = (some a, acc.2) := by
  obtain ⟨h1, h2⟩ := pyStrip_eq_self_parts a ha
  have hdne : a.data ≠ [] := string_data_ne a hne
  obtain ⟨c, cs, hrev⟩ : ∃ c cs, a.data.reverse = c :: cs := by
    cases hr : a.data.reverse with
    | nil => exact absurd (List.reverse_eq_nil_iff.mp hr) hdne
    | cons c cs => exact ⟨c, cs, rfl⟩
  have hc : pyIsSpace c = false := by
    apply dropWhile_cons_head pyIsSpace c cs
    rw [← hrev]
    exact h2
  have hdata : ("apikey:" ++ a).data = 'a' :: 'p' :: 'i' :: 'k' :: 'e' :: 'y' :: ':' ::a.data := by
    rw [String.data_append]
    rfl
  have hstripa : pyStripList a.data = a.data :=
    pyStripList_eq_self_of a.data h1 h2
  have hstrip : pyStripList ('a' :: 'p' :: 'i' :: 'k' :: 'e' :: 'y' :: ':' ::a.data)
      = 'a' :: 'p' :: 'i' :: 'k' :: 'e' :: 'y' :: ':' ::a.data := by
    apply pyStripList_eq_self_of
    · rw [List.dropWhile_cons, if_neg (by decide)]
    · rw [show ('a' :: 'p' :: 'i' :: 'k' :: 'e' :: 'y' :: ':' ::a.data) = ("apikey:").data ++ a.data from rfl,
        List.reverse_append, hrev, List.cons_append, List.dropWhile_cons,
        if_neg (by simp [hc])]
  have hsplit : splitFirstColon ('a' :: 'p' :: 'i' :: 'k' :: 'e' :: 'y' :: ':' ::a.data)
      = ('a' :: 'p' :: 'i' :: 'k' :: 'e' :: 'y' ::[], a.data) := by
    simp [splitFirstColon]
  have hcont : ('a' :: 'p' :: 'i' :: 'k' :: 'e' :: 'y' :: ':' ::a.data).contains ':' = true := by
    simp [List.contains, List.elem_cons]
  have hkey : pyLower (String.mk (pyStripList ('a' :: 'p' :: 'i' :: 'k' :: 'e' :: 'y' ::[]))) = "apikey" := by
    decide
  simp only [credsStep, hdata, hstrip]
  simp [hsplit, hcont, hkey, hstripa, stringMk_data]

theorem credsStep_tenantid (acc : Option String × Option String) (t : String)
    (ht : pyStrip t = t) (hne : t ≠ "") :
    credsStep acc ("tenantid:" ++ t) = (acc.1, some t) := by
  obtain ⟨h1, h2⟩ := pyStrip_eq_self_parts t ht
  have hdne : t.data ≠ [] := string_data_ne t hne
  obtain ⟨c, cs, hrev⟩ : ∃ c cs, t.data.reverse = c :: cs := by
    cases hr : t.data.reverse with
    | nil => exact absurd (List.reverse_eq_nil_iff.mp hr) hdne
    | cons c cs => exact ⟨c, cs, rfl⟩
  have hc : pyIsSpace c = false := by
    apply dropWhile_cons_head pyIsSpace c cs
    rw [← hrev]
    exact h2
  have hdata : ("tenantid:" ++ t).data = 't' :: 'e' :: 'n' :: 'a' :: 'n' :: 't' :: 'i' :: 'd' :: ':' ::t.data := by
    rw [String.data_append]
    rfl
  have hstripa : pyStripList t.data = t.data :=
    pyStripList_eq_self_of t.data h1 h2
  have hstrip : pyStripList ('t' :: 'e' :: 'n' :: 'a' :: 'n' :: 't' :: 'i' :: 'd' :: ':' ::t.data)
      = 't' :: 'e' :: 'n' :: 'a' :: 'n' :: 't' :: 'i' :: 'd' :: ':' ::t.data := by
    apply pyStripList_eq_self_of
    · rw [List.dropWhile_cons, if_neg (by decide)]
    · rw [show ('t' :: 'e' :: 'n' :: 'a' :: 'n' :: 't' :: 'i' :: 'd' :: ':' ::t.data) = ("tenantid:").data ++ t.data from rfl,
        List.reverse_append, hrev, List.cons_append, List.dropWhile_cons,
        if_neg (by simp [hc])]
  have hsplit : splitFirstColon ('t' :: 'e' :: 'n' :: 'a' :: 'n' :: 't' :: 'i' :: 'd' :: ':' ::t.data)
      = ('t' :: 'e' :: 'n' :: 'a' :: 'n' :: 't' :: 'i' :: 'd' ::[], t.data) := by
    simp [splitFirstColon]
  have hcont : ('t' :: 'e' :: 'n' :: 'a' :: 'n' :: 't' :: 'i' :: 'd' :: ':' ::t.data).contains ':' = true := by
    simp [List.contains, List.elem_cons]
  have hkey : pyLower (String.mk (pyStripList ('t' :: 'e' :: 'n' :: 'a' :: 'n' :: 't' :: 'i' :: 'd' ::[]))) = "tenantid" := by
    decide
  simp only [credsStep, hdata, hstrip]
  simp [hsplit, hcont, hkey, hstripa, stringMk_data]

theorem pySplitlines_mkCredsFile (a t : String)
    (hba : ∀ c ∈ a.data, isLineBreak c = false)
    (hbt : ∀ c ∈ t.data, isLineBreak c = false) (htne : t ≠ "") :
    pySplitlines (mkCredsFile a t) = ["apikey:" ++ a, "tenantid:" ++ t] := by
  have hdata : (mkCredsFile a t).data
      = (("apikey:").data ++ a.data) ++ '\n' :: (("tenantid:").data ++ t.data) := by
    simp only [mkCredsFile, String.data_append]
    simp [List.append_assoc]
  have hnb1 : ∀ c ∈ ("apikey:").data ++ a.data, isLineBreak c = false := by
    intro c hmem
    rcases List.mem_append.mp hmem with h | h
    · fin_cases h <;> decide
    · exact hba c h
  have hnb2 : ∀ c ∈ ("tenantid:").data ++ t.data, isLineBreak c = false := by
    intro c hmem
    rcases List.mem_append.mp hmem with h | h
    · fin_cases h <;> decide
    · exact hbt c h
  unfold pySplitlines
  rw [hdata, sm_append_newline _ hnb1 [] _, sm_no_break _ hnb2 [] (by simp)]
  simp only [List.reverse_nil, List.nil_append]
  rw [show String.mk (("apikey:").data ++ a.data) = "apikey:" ++ a from by rw [← String.data_append]]
  rw [show String.mk (("tenantid:").data ++ t.data) = "tenantid:" ++ t from by rw [← String.data_append]]

/-- C4: a well-formed credential file holding both entries resolves to
exactly the stored `(apiKey, tenantId)` pair; a file whose scan leaves
either entry missing or empty fails with the `ValueError` (the spec's
`ConfigurationError`). -/
theorem c4_credentials :
    (∀ (a t : String), pyStrip a = a → pyStrip t = t → a ≠ "" → t ≠ "" →
       (∀ c ∈ a.data, isLineBreak c = false) → (∀ c ∈ t.data, isLineBreak c = false) →
       read_creds (some (mkCredsFile a t)) = .ok (a, t))
    ∧ (∀ content : String,
         optStrTruthy (scanCreds content).1 = false ∨ optStrTruthy (scanCreds content).2 = false →
         read_creds (some content)
           = .error (.valueError ("Both \x27apikey\x27 and \x27tenantid\x27 must be present in creds file"))) := by
  constructor
  · intro a t ha ht hane htne hba hbt
    have hscan : scanCreds (mkCredsFile a t) = (some a, some t) := by
      unfold scanCreds
      rw [pySplitlines_mkCredsFile a t hba hbt htne]
      simp only [List.foldl]
      rw [credsStep_apikey (none, none) a ha hane]
      rw [credsStep_tenantid (some a, none) t ht htne]
    simp only [read_creds, hscan]
    rw [if_neg (by simp [optStrTruthy, hane, htne])]
    rfl
  · intro content h
    simp only [read_creds]
    rcases h with h | h <;> rw [if_pos (by simp [h])]

theorem c4_credentials_witness :
    (read_creds (some (mkCredsFile ("k1") ("t1"))) = .ok ("k1", "t1"))
    ∧ (read_creds (some ("apikey:k1"))
        = .error (.valueError ("Both \x27apikey\x27 and \x27tenantid\x27 must be present in creds file"))) :=
  ⟨c4_credentials.1 ("k1") ("t1") (by decide) (by decide) (by decide) (by decide)
      (by decide) (by decide),
   c4_credentials.2 ("apikey:k1") (Or.inr (by decide))⟩

/-- C7: if the token exchange fails, the storage-systems listing call is
never made; if the listing fetch fails, neither the raw JSON payload
nor the table is written to any sink. -/
theorem c7_no_partial_success (args : Args) (env : Env) :
    (token_exchange_failed env → ∀ u, Effect.storageCall u ∉ (mainRun args env).2)
    ∧ (listing_fetch_failed env →
        (∀ p j, Effect.wroteJson p j ∉ (mainRun args env).2)
        ∧ (∀ p txt, Effect.wroteTable p txt ∉ (mainRun args env).2)) := by
  constructor
  · intro hfail u
    unfold mainRun
    cases hc : read_creds env.credsFile with
    | error e => simp
    | ok creds =>
        cases ht : obtain_token creds.1 creds.2 env.tokenNet with
        | ok tok =>
            have hbad := hfail creds.1 creds.2
            rw [ht] at hbad
            simp [isError] at hbad
        | error e =>
            cases hq : args.quiet <;> simp [hq, ht]
  · intro hfail
    have key : ∀ p j ptxt txt, Effect.wroteJson p j ∉ (mainRun args env).2
        ∧ Effect.wroteTable ptxt txt ∉ (mainRun args env).2 := by
      intro p j ptxt txt
      unfold mainRun
      cases hc : read_creds env.credsFile with
      | error e => simp
      | ok creds =>
          cases ht : obtain_token creds.1 creds.2 env.tokenNet with
          | error e =>
              cases hq : args.quiet <;> simp [hq, ht]
          | ok tok =>
              have hbad := hfail creds.2 (pyStr tok.1)
                (if args.storage_type = "" then none else some args.storage_type)
              cases hf : fetch_storage_systems creds.2 (pyStr tok.1)
                  (if args.storage_type = "" then none else some args.storage_type)
                  env.storageNet with
              | ok payload =>
                  rw [hf] at hbad
                  simp [isError] at hbad
              | error e =>
                  cases hq : args.quiet <;> cases hto : args.token_out <;>
                    simp [hq, hto, ht, hf]
    exact ⟨fun p j => (key p j ("") ("")).1, fun p txt => (key ("") .null p txt).2⟩

theorem c7_no_partial_success_witness :
    (Effect.storageCall ("u")
        ∉ (mainRun ⟨"block", none, false, none, none, none, false⟩
            ⟨some ("apikey:k\ntenantid:t"), .unreachable ("x"), .unreachable ("x")⟩).2)
    ∧ (Effect.wroteJson ("p") .null
        ∉ (mainRun ⟨"block", none, false, none, none, none, false⟩
            ⟨some ("apikey:k\ntenantid:t"), .unreachable ("x"), .unreachable ("x")⟩).2) :=
  ⟨(c7_no_partial_success ⟨"block", none, false, none, none, none, false⟩
      ⟨some ("apikey:k\ntenantid:t"), .unreachable ("x"), .unreachable ("x")⟩).1
      (fun ak tu => rfl) ("u"),
   ((c7_no_partial_success ⟨"block", none, false, none, none, none, false⟩
      ⟨some ("apikey:k\ntenantid:t"), .unreachable ("x"), .unreachable ("x")⟩).2
      (fun tu tok st => rfl)).1 ("p") .null⟩
